import Mathlib

set_option linter.unusedVariables false

/-!
Verification of `src/src/utils/logger.ts` (bytelucas/shared).

The file exports two functions:
  * `winstonLogger(elasticsearchNode, name, level)` — builds a winston
    logger configuration with a console transport and an Elasticsearch
    transport (lines 5-56);
  * `checkElasticLoggingSetup(elasticsearchNode)` — an async bootstrap that
    probes cluster health, then ensures an ILM policy `logs_policy`, an
    index template `logs_template` and the daily index `logs-YYYY.MM.DD`
    exist, returning a boolean (lines 58-173).

The shallow embedding below models the Elasticsearch backend as an explicit
state (named policies, named templates, index names) together with a fault
profile saying which client calls throw.  The bootstrap is a pure function
from fault profile, backend state and calendar date to a result carrying
the returned boolean, the final backend state, the sequence of client
calls issued, and the console log lines.  A thrown exception inside the
`try` block is modelled by returning immediately with `ok := false` and
the outer catch's diagnostic appended, exactly as the single outer
`catch` (lines 169-172) would.
-/

/-- Date suffix digits: `String(n).padStart(2, "0")` from lines 18-19 and
155-156 of the source. -/
def pad2 (n : Nat) : String :=
  let s := toString n
  if s.length < 2 then "0" ++ s else s

/-- A local calendar date as seen by `new Date()`: the 1-based month
(`getMonth() + 1`) and day of month. -/
structure CalDate where
  year : Nat
  month : Nat
  day : Nat
  deriving Repr, DecidableEq

/-- The `${year}.${month}.${day}` suffix from lines 16-20 and 152-157. -/
def indexSuffix (d : CalDate) : String :=
  toString d.year ++ "." ++ pad2 d.month ++ "." ++ pad2 d.day

/-- The daily index name `logs-YYYY.MM.DD` from line 157. -/
def dailyIndexName (d : CalDate) : String :=
  "logs-" ++ indexSuffix d

/-- The `rollover` action body of the hot phase (lines 85-88). -/
structure RolloverAction where
  max_age : String
  max_size : String
  deriving Repr, DecidableEq

/-- The actions of one ILM phase (lines 84-111): a phase may carry a
rollover, a shrink (number_of_shards), a forcemerge (max_num_segments)
and a delete action. -/
structure PhaseActions where
  rollover : Option RolloverAction := none
  shrink_number_of_shards : Option Nat := none
  forcemerge_max_num_segments : Option Nat := none
  delete : Bool := false
  deriving Repr, DecidableEq

/-- One ILM phase: a `min_age` and its actions (lines 82-111). -/
structure ILMPhase where
  min_age : String
  actions : PhaseActions
  deriving Repr, DecidableEq

/-- The four-phase ILM policy body (lines 80-113). -/
structure ILMPolicy where
  hot : ILMPhase
  warm : ILMPhase
  cold : ILMPhase
  delete : ILMPhase
  deriving Repr, DecidableEq

/-- The literal policy body passed to `ilm.putLifecycle` (lines 77-115). -/
def logsPolicy : ILMPolicy where
  hot :=
    { min_age := "0ms"
      actions := { rollover := some { max_age := "7d", max_size := "5gb" } } }
  warm :=
    { min_age := "7d"
      actions :=
        { shrink_number_of_shards := some 1
          forcemerge_max_num_segments := some 1 } }
  cold := { min_age := "30d", actions := {} }
  delete := { min_age := "90d", actions := { delete := true } }

/-- The index-template body (lines 130-147): patterns, settings and the
field-type mappings. -/
structure IndexTemplate where
  index_patterns : List String
  number_of_shards : Nat
  number_of_replicas : Nat
  lifecycle_name : String
  mappings : List (String × String)
  deriving Repr, DecidableEq

/-- The literal template body passed to `indices.putIndexTemplate`
(lines 128-148). -/
def logsTemplate : IndexTemplate where
  index_patterns := ["logs-*"]
  number_of_shards := 1
  number_of_replicas := 1
  lifecycle_name := "logs_policy"
  mappings :=
    [("@timestamp", "date"), ("message", "text"),
     ("level", "keyword"), ("service", "keyword")]

/-- The persistent state of the Elasticsearch backend, as far as this
bootstrap touches it: named ILM policies, named index templates, and
index names. -/
structure ESState where
  policies : List (String × ILMPolicy)
  templates : List (String × IndexTemplate)
  indices : List String
  deriving Repr, DecidableEq

/-- Elasticsearch PUT-by-name semantics: replace the entry when the name
is present, append it otherwise. -/
def putNamed {α : Type} (k : String) (v : α) (l : List (String × α)) :
    List (String × α) :=
  if l.any (fun p => p.1 = k) then
    l.map (fun p => if p.1 = k then (k, v) else p)
  else l ++ [(k, v)]

/-- The empty backend: no policies, no templates, no indices. -/
def emptyState : ESState where
  policies := []
  templates := []
  indices := []

/-- The client calls `checkElasticLoggingSetup` can issue, in source
order: `cluster.health` (line 65), `ilm.getLifecycle` (line 70),
`ilm.putLifecycle` (line 77), `indices.existsIndexTemplate` (line 121),
`indices.putIndexTemplate` (line 128), `indices.exists` (line 160),
`indices.create` (line 162). -/
inductive ESCall where
  | clusterHealth
  | getLifecycle
  | putLifecycle
  | existsIndexTemplate
  | putIndexTemplate
  | indexExists
  | createIndex
  deriving Repr, DecidableEq

/-- The fault profile of one run: the health status the cluster reports
and, for each client call, whether that call throws/rejects.  A
`getLifecycleFails` fault makes the fetch fail even when the policy is
present (a transient error, not a true not-found). -/
structure Faults where
  healthStatus : String := "green"
  healthFails : Bool := false
  getLifecycleFails : Bool := false
  putLifecycleFails : Bool := false
  existsTemplateFails : Bool := false
  putTemplateFails : Bool := false
  indexExistsFails : Bool := false
  createIndexFails : Bool := false
  deriving Repr, DecidableEq

/-- The fault-free profile: every client call succeeds. -/
def noFaults : Faults := {}

/-- The result of one run of `checkElasticLoggingSetup`: the returned
boolean, the final backend state, the client calls issued (in order), and
the console output lines. -/
structure RunResult where
  ok : Bool
  state : ESState
  calls : List ESCall
  logs : List String
  deriving Repr, DecidableEq

/-- The diagnostic of the outer catch, line 170:
`console.error("Failed to setup Elasticsearch logging:", error)`. -/
def failMsg : String := "Failed to setup Elasticsearch logging:"

/-- Lines 152-166: compute today's index name, check `indices.exists`
(whose rejection propagates to the outer catch — there is no `.catch` on
it), and create the index when absent.  On success the whole `try` body
returns `true` (line 168). -/
def indexStage (f : Faults) (s : ESState) (d : CalDate)
    (calls : List ESCall) (logs : List String) : RunResult :=
  let calls := calls ++ [ESCall.indexExists]
  if f.indexExistsFails then
    { ok := false, state := s, calls := calls, logs := logs ++ [failMsg] }
  else
    let idx := dailyIndexName d
    if s.indices.contains idx then
      { ok := true, state := s, calls := calls, logs := logs }
    else
      let calls := calls ++ [ESCall.createIndex]
      if f.createIndexFails then
        { ok := false, state := s, calls := calls, logs := logs ++ [failMsg] }
      else
        { ok := true
          state := { s with indices := s.indices ++ [idx] }
          calls := calls
          logs := logs ++ ["Created Elasticsearch index: " ++ idx] }

/-- Lines 120-150: `indices.existsIndexTemplate` with `.catch(() => false)`
(any failure of the check is treated as "does not exist"), then
`putIndexTemplate` when absent; a `put` failure propagates to the outer
catch. -/
def templateStage (f : Faults) (s : ESState) (d : CalDate)
    (calls : List ESCall) (logs : List String) : RunResult :=
  let calls := calls ++ [ESCall.existsIndexTemplate]
  let templateExists :=
    !f.existsTemplateFails && s.templates.any (fun p => p.1 = "logs_template")
  if templateExists then
    indexStage f s d calls logs
  else
    let logs := logs ++ ["Creating index template with ILM settings..."]
    let calls := calls ++ [ESCall.putIndexTemplate]
    if f.putTemplateFails then
      { ok := false, state := s, calls := calls, logs := logs ++ [failMsg] }
    else
      indexStage f
        { s with templates := putNamed "logs_template" logsTemplate s.templates }
        d calls (logs ++ ["Index template created successfully"])

/-- Lines 69-117: the inner try/catch around `ilm.getLifecycle`.  Any
failure of the fetch — true absence or transient error — lands in the
catch, which logs and calls `ilm.putLifecycle`; a `put` failure
propagates to the outer catch. -/
def policyStage (f : Faults) (s : ESState) (d : CalDate)
    (calls : List ESCall) (logs : List String) : RunResult :=
  let calls := calls ++ [ESCall.getLifecycle]
  let policyFound :=
    !f.getLifecycleFails && s.policies.any (fun p => p.1 = "logs_policy")
  if policyFound then
    templateStage f s d calls (logs ++ ["Using existing ILM policy for logs"])
  else
    let logs := logs ++ ["Creating ILM policy for logs..."]
    let calls := calls ++ [ESCall.putLifecycle]
    if f.putLifecycleFails then
      { ok := false, state := s, calls := calls, logs := logs ++ [failMsg] }
    else
      templateStage f
        { s with policies := putNamed "logs_policy" logsPolicy s.policies }
        d calls (logs ++ ["ILM policy created successfully"])

/-- Lines 58-173: the whole bootstrap.  The first awaited call is
`cluster.health` (line 65); its rejection falls straight to the outer
catch, which logs the diagnostic and returns `false` (lines 169-172). -/
def checkElasticLoggingSetup (f : Faults) (s : ESState) (d : CalDate) :
    RunResult :=
  if f.healthFails then
    { ok := false
      state := s
      calls := [ESCall.clusterHealth]
      logs := [failMsg] }
  else
    policyStage f s d [ESCall.clusterHealth]
      ["Elasticsearch health for logging: " ++ f.healthStatus]

/-- The configuration handed to `new ElasticsearchTransport` on
lines 23-31. -/
structure ESTransportConfig where
  level : String
  indexPrefix : String
  indexSuffixPattern : String
  source : String
  bufferLimit : Nat
  flushInterval : Nat
  deriving Repr, DecidableEq

/-- The logger configuration built by `winston.createLogger` on
lines 34-50: the raw `level` argument, the `defaultMeta.service` field,
and the Elasticsearch transport's configuration. -/
structure WinstonLoggerConfig where
  level : String
  serviceMeta : String
  esTransport : ESTransportConfig
  deriving Repr, DecidableEq

/-- Lines 5-56: `winstonLogger(elasticsearchNode, name, level)`.  The
empty string stands for a falsy (empty/undefined) `level` argument, so
`level || "info"` on line 24 becomes an emptiness test.  The logger's own
`level` (line 35) is the raw argument, with no default. -/
def winstonLogger (elasticsearchNode name level : String) :
    WinstonLoggerConfig where
  level := level
  serviceMeta := name
  esTransport :=
    { level := if level = "" then "info" else level
      indexPrefix := "logs"
      indexSuffixPattern := "YYYY.MM.DD"
      source := name
      bufferLimit := 100
      flushInterval := 500 }

/-- Modelled from the spec: the external log-emission facade (the winston
library, not part of src/) offers "level-gated structured record
emission"; winston's npm severity order assigns `error` the smallest
number and `silly` the largest, and a record passes the gate when its
severity number is at most the logger's. -/
def levelPriority : String → Option Nat
  | "error" => some 0
  | "warn" => some 1
  | "info" => some 2
  | "http" => some 3
  | "verbose" => some 4
  | "debug" => some 5
  | "silly" => some 6
  | _ => none

/-- `level` names one of the severity levels the facade knows. -/
def validLevel (l : String) : Bool :=
  (levelPriority l).isSome

/-- `a` is strictly below (less severe than) `b`: both are valid levels
and `a` has the larger severity number. -/
def levelBelow (a b : String) : Bool :=
  match levelPriority a, levelPriority b with
  | some pa, some pb => decide (pb < pa)
  | _, _ => false

/-- A record as emitted through the configured logger: its level, its
message, and the `service` field contributed by `defaultMeta`
(line 36). -/
structure EmittedRecord where
  level : String
  message : String
  service : String
  deriving Repr, DecidableEq

/-- Modelled from the spec: emitting one record through the configured
facade.  The record appears, tagged with the `defaultMeta` service field,
exactly when it passes the logger's minimum-level gate. -/
def emitRecord (cfg : WinstonLoggerConfig) (recLevel message : String) :
    Option EmittedRecord :=
  let pass : Bool :=
    match levelPriority cfg.level, levelPriority recLevel with
    | some pmin, some prec => decide (prec ≤ pmin)
    | _, _ => false
  if pass then
    some { level := recLevel, message := message, service := cfg.serviceMeta }
  else none

/-! ## Helper lemmas -/

/-- Appending one element fixes `getLast?`. -/
theorem last_of_append_single {α : Type} (l : List α) (a : α) :
    (l ++ [a]).getLast? = some a := by
  rw [List.getLast?_append_cons]
  rfl

/-- The calls a run issues when everything already exists: the health
probe plus the three existence checks, in source order. -/
def bootstrapExistenceChecks : List ESCall :=
  [ESCall.clusterHealth, ESCall.getLifecycle,
   ESCall.existsIndexTemplate, ESCall.indexExists]

/-- A backend that already holds the policy, the template and the daily
index of 2024-03-05, used to instantiate the hypothetical theorems. -/
def readyState : ESState where
  policies := [("logs_policy", logsPolicy)]
  templates := [("logs_template", logsTemplate)]
  indices := ["logs-2024.03.05"]

/-! ## Claims -/

/-- Claim C6: the index-suffix derivation is a deterministic function of
the local calendar date with zero-padded month and day separated by
periods; for the calendar date 2024-03-05 the suffix is exactly
"2024.03.05" and the daily index name is exactly "logs-2024.03.05". -/
theorem indexSuffix_2024_03_05 :
    indexSuffix { year := 2024, month := 3, day := 5 } = "2024.03.05" ∧
    dailyIndexName { year := 2024, month := 3, day := 5 } =
      "logs-2024.03.05" := by
  constructor <;> rfl

/-- Claim C8: for every call, the Elasticsearch transport is configured
with minimum level equal to the given level — defaulting to "info" when
the level argument is empty/unspecified — index-name prefix "logs",
per-day suffix pattern "YYYY.MM.DD", source tag equal to the service
name, buffer limit 100 records and flush interval 500 ms. -/
theorem winstonLogger_remote_sink_config
    (elasticsearchNode name level : String) :
    (winstonLogger elasticsearchNode name level).esTransport =
      { level := if level = "" then "info" else level
        indexPrefix := "logs"
        indexSuffixPattern := "YYYY.MM.DD"
        source := name
        bufferLimit := 100
        flushInterval := 500 } ∧
    (winstonLogger elasticsearchNode name "").esTransport.level = "info" :=
  ⟨rfl, rfl⟩

/-- Claim C9 (implicit): the "info" default applies only to the remote
transport; the winston logger's own top-level level is the raw argument
with no default, so an empty/undefined level leaves the logger's overall
level empty rather than "info". -/
theorem winstonLogger_top_level_no_default (elasticsearchNode name : String) :
    (winstonLogger elasticsearchNode name "").level = "" ∧
    (winstonLogger elasticsearchNode name "").esTransport.level = "info" ∧
    (winstonLogger elasticsearchNode name "").level ≠
      (winstonLogger elasticsearchNode name "").esTransport.level := by
  refine ⟨rfl, rfl, ?_⟩
  intro h
  simp [winstonLogger] at h

/-- Every exit of the index stage either returns `true` or returns
`false` with the outer catch's diagnostic as its last log line. -/
theorem indexStage_ok_or_diag (f : Faults) (s : ESState) (d : CalDate)
    (calls : List ESCall) (logs : List String) :
    (indexStage f s d calls logs).ok = true ∨
    ((indexStage f s d calls logs).ok = false ∧
      (indexStage f s d calls logs).logs.getLast? = some failMsg) := by
  simp only [indexStage]
  split_ifs with h1 h2 h3 <;> simp [last_of_append_single]

/-- Every exit of the template stage either returns `true` or returns
`false` with the diagnostic as its last log line. -/
theorem templateStage_ok_or_diag (f : Faults) (s : ESState) (d : CalDate)
    (calls : List ESCall) (logs : List String) :
    (templateStage f s d calls logs).ok = true ∨
    ((templateStage f s d calls logs).ok = false ∧
      (templateStage f s d calls logs).logs.getLast? = some failMsg) := by
  simp only [templateStage]
  split_ifs with h1 h2
  · exact indexStage_ok_or_diag ..
  · simp [last_of_append_single]
  · exact indexStage_ok_or_diag ..

/-- Every exit of the policy stage either returns `true` or returns
`false` with the diagnostic as its last log line. -/
theorem policyStage_ok_or_diag (f : Faults) (s : ESState) (d : CalDate)
    (calls : List ESCall) (logs : List String) :
    (policyStage f s d calls logs).ok = true ∨
    ((policyStage f s d calls logs).ok = false ∧
      (policyStage f s d calls logs).logs.getLast? = some failMsg) := by
  simp only [policyStage]
  split_ifs with h1 h2
  · exact templateStage_ok_or_diag ..
  · simp [last_of_append_single]
  · exact templateStage_ok_or_diag ..

/-- Claim C1: for every backend address (every fault profile and backend
state), `checkElasticLoggingSetup` never throws: its result is always a
boolean, and every failure of any backend call is caught internally, the
function returning `false` with the outer catch's logged diagnostic. -/
theorem checkElasticLoggingSetup_never_throws
    (f : Faults) (s : ESState) (d : CalDate) :
    (checkElasticLoggingSetup f s d).ok = true ∨
    ((checkElasticLoggingSetup f s d).ok = false ∧
      (checkElasticLoggingSetup f s d).logs.getLast? = some failMsg) := by
  simp only [checkElasticLoggingSetup]
  split_ifs with h1
  · exact Or.inr ⟨rfl, rfl⟩
  · exact policyStage_ok_or_diag ..

/-- Claim C5: when the cluster-health query throws or rejects,
`checkElasticLoggingSetup` returns `false`, touches nothing, and issues
no `putLifecycle`, `putIndexTemplate` or index-create call — the only
call issued is the health probe itself. -/
theorem checkElasticLoggingSetup_health_gate
    (f : Faults) (s : ESState) (d : CalDate) (hh : f.healthFails = true) :
    (checkElasticLoggingSetup f s d).ok = false ∧
    (checkElasticLoggingSetup f s d).calls = [ESCall.clusterHealth] ∧
    ESCall.putLifecycle ∉ (checkElasticLoggingSetup f s d).calls ∧
    ESCall.putIndexTemplate ∉ (checkElasticLoggingSetup f s d).calls ∧
    ESCall.createIndex ∉ (checkElasticLoggingSetup f s d).calls ∧
    (checkElasticLoggingSetup f s d).state = s := by
  simp [checkElasticLoggingSetup, hh]

/-- Witness for C5 at a concrete fault profile, backend and date. -/
theorem checkElasticLoggingSetup_health_gate_witness :
    ({ healthFails := true : Faults }).healthFails = true ∧
    (checkElasticLoggingSetup { healthFails := true } readyState
      { year := 2024, month := 3, day := 5 }).ok = false :=
  ⟨rfl, (checkElasticLoggingSetup_health_gate { healthFails := true }
    readyState { year := 2024, month := 3, day := 5 } rfl).1⟩

/-- Claim C4: when the `getLifecycle` fetch fails for a reason other than
true absence (the policy is in fact present), the function proceeds to
attempt `putLifecycle`; when that creation call itself also fails, the
whole run returns `false` even though the backend (unchanged) is already
correctly configured. -/
theorem checkElasticLoggingSetup_ambiguous_error
    (f : Faults) (s : ESState) (d : CalDate)
    (hh : f.healthFails = false) (hg : f.getLifecycleFails = true)
    (hpl : f.putLifecycleFails = true)
    (hp : s.policies.any (fun p => p.1 = "logs_policy") = true) :
    ESCall.putLifecycle ∈ (checkElasticLoggingSetup f s d).calls ∧
    (checkElasticLoggingSetup f s d).ok = false ∧
    (checkElasticLoggingSetup f s d).state = s ∧
    (checkElasticLoggingSetup f s d).logs.getLast? = some failMsg := by
  simp [checkElasticLoggingSetup, policyStage, hh, hg, hpl,
    last_of_append_single]

/-- Witness for C4: a backend already holding `logs_policy`, a transient
fetch fault and a failing create. -/
theorem checkElasticLoggingSetup_ambiguous_error_witness :
    readyState.policies.any (fun p => p.1 = "logs_policy") = true ∧
    (checkElasticLoggingSetup
      { getLifecycleFails := true, putLifecycleFails := true } readyState
      { year := 2024, month := 3, day := 5 }).ok = false :=
  ⟨by decide, (checkElasticLoggingSetup_ambiguous_error
    { getLifecycleFails := true, putLifecycleFails := true } readyState
    { year := 2024, month := 3, day := 5 } rfl rfl rfl (by decide)).2.1⟩

/-- Claim C10 (implicit): the daily-index existence check has no
`.catch`, so its failure propagates to the outer catch — whenever
`indices.exists` throws (and the run reaches it, the earlier create
calls not having aborted), the function returns `false` with the
diagnostic and never attempts to create the daily index. -/
theorem checkElasticLoggingSetup_indexExists_error_propagates
    (f : Faults) (s : ESState) (d : CalDate)
    (hh : f.healthFails = false) (hpl : f.putLifecycleFails = false)
    (hpt : f.putTemplateFails = false) (hie : f.indexExistsFails = true) :
    (checkElasticLoggingSetup f s d).ok = false ∧
    ESCall.createIndex ∉ (checkElasticLoggingSetup f s d).calls ∧
    ESCall.indexExists ∈ (checkElasticLoggingSetup f s d).calls ∧
    (checkElasticLoggingSetup f s d).logs.getLast? = some failMsg := by
  simp only [checkElasticLoggingSetup, policyStage, templateStage,
    indexStage, hh, hpl, hpt, hie]
  split_ifs <;>
    simp_all [last_of_append_single]

/-- Witness for C10: a fault profile failing only the daily-index
existence check, against the already-configured backend. -/
theorem checkElasticLoggingSetup_indexExists_error_witness :
    ({ indexExistsFails := true : Faults }).indexExistsFails = true ∧
    (checkElasticLoggingSetup { indexExistsFails := true } readyState
      { year := 2024, month := 3, day := 5 }).ok = false :=
  ⟨rfl, (checkElasticLoggingSetup_indexExists_error_propagates
    { indexExistsFails := true } readyState
    { year := 2024, month := 3, day := 5 } rfl rfl rfl rfl).1⟩

/-- Claim C2: against a backend that already holds `logs_policy`,
`logs_template` and today's index, with every existence check
succeeding, the run returns `true` and issues only the health probe and
the three existence checks — no `putLifecycle`, `putIndexTemplate` or
index-create call — leaves the backend state unchanged, and a second
invocation in succession again returns `true` with only existence
checks. -/
theorem checkElasticLoggingSetup_idempotent
    (f : Faults) (s : ESState) (d : CalDate)
    (hh : f.healthFails = false) (hg : f.getLifecycleFails = false)
    (ht : f.existsTemplateFails = false) (hi : f.indexExistsFails = false)
    (hp : s.policies.any (fun p => p.1 = "logs_policy") = true)
    (htp : s.templates.any (fun p => p.1 = "logs_template") = true)
    (hix : s.indices.contains (dailyIndexName d) = true) :
    (checkElasticLoggingSetup f s d).ok = true ∧
    (checkElasticLoggingSetup f s d).state = s ∧
    (checkElasticLoggingSetup f s d).calls = bootstrapExistenceChecks ∧
    ESCall.putLifecycle ∉ (checkElasticLoggingSetup f s d).calls ∧
    ESCall.putIndexTemplate ∉ (checkElasticLoggingSetup f s d).calls ∧
    ESCall.createIndex ∉ (checkElasticLoggingSetup f s d).calls ∧
    (checkElasticLoggingSetup f (checkElasticLoggingSetup f s d).state
      d).ok = true ∧
    (checkElasticLoggingSetup f (checkElasticLoggingSetup f s d).state
      d).calls = bootstrapExistenceChecks := by
  have h1 : checkElasticLoggingSetup f s d =
      { ok := true
        state := s
        calls := bootstrapExistenceChecks
        logs := ["Elasticsearch health for logging: " ++ f.healthStatus,
                 "Using existing ILM policy for logs"] } := by
    simp only [checkElasticLoggingSetup, policyStage, templateStage,
      indexStage, hh, hg, ht, hi, hp, htp, hix]
    simp [bootstrapExistenceChecks]
  rw [h1]
  refine ⟨rfl, rfl, rfl, ?_, ?_, ?_, ?_, ?_⟩
  · show ESCall.putLifecycle ∉ bootstrapExistenceChecks
    decide
  · show ESCall.putIndexTemplate ∉ bootstrapExistenceChecks
    decide
  · show ESCall.createIndex ∉ bootstrapExistenceChecks
    decide
  · show (checkElasticLoggingSetup f s d).ok = true
    rw [h1]
  · show (checkElasticLoggingSetup f s d).calls = bootstrapExistenceChecks
    rw [h1]

/-- Witness for C2: the fault-free profile against the already-configured
backend of 2024-03-05. -/
theorem checkElasticLoggingSetup_idempotent_witness :
    readyState.indices.contains
      (dailyIndexName { year := 2024, month := 3, day := 5 }) = true ∧
    (checkElasticLoggingSetup noFaults readyState
      { year := 2024, month := 3, day := 5 }).ok = true ∧
    (checkElasticLoggingSetup noFaults
      (checkElasticLoggingSetup noFaults readyState
        { year := 2024, month := 3, day := 5 }).state
      { year := 2024, month := 3, day := 5 }).ok = true := by
  have h := checkElasticLoggingSetup_idempotent noFaults readyState
    { year := 2024, month := 3, day := 5 } rfl rfl rfl rfl
    (by decide) (by decide) (by decide)
  exact ⟨by decide, h.1, h.2.2.2.2.2.2.1⟩

/-- Claim C3: against the empty backend with every call succeeding, one
run creates exactly one lifecycle policy `logs_policy` (four phases
hot/warm/cold/delete at min ages 0ms/7d/30d/90d, hot rollover at max_age
7d or max_size 5gb, warm shrink to 1 shard and force-merge to 1 segment,
cold with no actions, delete with a delete action), exactly one index
template `logs_template` (pattern `logs-*`, 1 shard, 1 replica,
lifecycle.name = logs_policy, mappings @timestamp:date, message:text,
level:keyword, service:keyword), and exactly one index named
`logs-<today>`, then returns `true`. -/
theorem checkElasticLoggingSetup_first_run (d : CalDate) :
    checkElasticLoggingSetup noFaults emptyState d =
      { ok := true
        state :=
          { policies := [("logs_policy", logsPolicy)]
            templates := [("logs_template", logsTemplate)]
            indices := [dailyIndexName d] }
        calls :=
          [ESCall.clusterHealth, ESCall.getLifecycle, ESCall.putLifecycle,
           ESCall.existsIndexTemplate, ESCall.putIndexTemplate,
           ESCall.indexExists, ESCall.createIndex]
        logs :=
          ["Elasticsearch health for logging: green",
           "Creating ILM policy for logs...",
           "ILM policy created successfully",
           "Creating index template with ILM settings...",
           "Index template created successfully",
           "Created Elasticsearch index: " ++ dailyIndexName d] } ∧
    logsPolicy.hot.min_age = "0ms" ∧
    logsPolicy.warm.min_age = "7d" ∧
    logsPolicy.cold.min_age = "30d" ∧
    logsPolicy.delete.min_age = "90d" ∧
    logsPolicy.hot.actions.rollover =
      some { max_age := "7d", max_size := "5gb" } ∧
    logsPolicy.warm.actions.shrink_number_of_shards = some 1 ∧
    logsPolicy.warm.actions.forcemerge_max_num_segments = some 1 ∧
    logsPolicy.cold.actions = {} ∧
    logsPolicy.delete.actions.delete = true ∧
    logsTemplate.index_patterns = ["logs-*"] ∧
    logsTemplate.number_of_shards = 1 ∧
    logsTemplate.number_of_replicas = 1 ∧
    logsTemplate.lifecycle_name = "logs_policy" ∧
    logsTemplate.mappings =
      [("@timestamp", "date"), ("message", "text"),
       ("level", "keyword"), ("service", "keyword")] :=
  ⟨rfl, rfl, rfl, rfl, rfl, rfl, rfl, rfl, rfl, rfl, rfl, rfl, rfl, rfl,
   rfl⟩

/-- Claim C7: for every valid serviceName and minLevel, `winstonLogger`
returns a handle whose configuration tags every emitted record with the
default field `service = serviceName`, and whose minimum-level gate
suppresses every record strictly below minLevel. -/
theorem winstonLogger_service_tag_and_level_gate
    (elasticsearchNode name minLevel : String)
    (hv : validLevel minLevel = true) :
    (∀ recLevel message rec,
        emitRecord (winstonLogger elasticsearchNode name minLevel)
          recLevel message = some rec →
        rec.service = name) ∧
    (∀ recLevel message,
        levelBelow recLevel minLevel = true →
        emitRecord (winstonLogger elasticsearchNode name minLevel)
          recLevel message = none) := by
  constructor
  · intro recLevel message rec h
    simp only [emitRecord] at h
    split at h
    · cases h
      rfl
    · exact Option.noConfusion h
  · intro recLevel message hb
    unfold levelBelow at hb
    simp only [emitRecord, winstonLogger]
    cases hr : levelPriority recLevel with
    | none => simp [hr] at hb
    | some prec =>
      cases hm : levelPriority minLevel with
      | none => simp [hr, hm] at hb
      | some pmin =>
        rw [hr, hm] at hb
        simp only [decide_eq_true_eq] at hb
        simp only [hr, hm]
        have hnot : ¬ prec ≤ pmin := by omega
        simp [hnot]

/-- Witness for C7: a logger at level "info" suppresses a "debug" record. -/
theorem winstonLogger_service_tag_and_level_gate_witness :
    validLevel "info" = true ∧
    emitRecord (winstonLogger "http://localhost:9200" "auth" "info")
      "debug" "hello" = none :=
  ⟨by decide,
   (winstonLogger_service_tag_and_level_gate "http://localhost:9200"
     "auth" "info" (by decide)).2 "debug" "hello" (by decide)⟩
